import Mathlib

/-!
Verification development for the lojack_api repository.

Shallow embedding of:
- the authentication session manager (src/lojack_clients/auth.py),
- the location enrichment routine (src/lojack_api/device.py),
- the device/vehicle classification and 404 translation of the two clients
  (src/lojack_api/api.py and src/lojack_clients/api.py),
- the GPS-accuracy resolver (lojack_api/models.py is not present in the
  source tree; it is modelled from spec section 4.2 and checked against
  src/tests/test_models.py).

JSON values are modelled by an inductive `JVal`; Python truthiness,
`dict.get`, `or`, `str()` and `int()` are modelled explicitly.  Observation
instants are integers and stored expiries rationals (seconds since the
Unix epoch, UTC); the overflow behaviour
of `datetime.fromtimestamp`, `timedelta(seconds=...)` and datetime
addition is modelled by explicit range checks.
-/

namespace LoJack

/-- JSON values as delivered by the transport layer. Numbers are modelled
as rationals (the claims under verification only exercise exact values). -/
inductive JVal where
  | null : JVal
  | bool (b : Bool) : JVal
  | num (q : ℚ) : JVal
  | str (s : String) : JVal
  | arr (xs : List JVal) : JVal
  | obj (kvs : List (String × JVal)) : JVal

/-- Python truthiness of a JSON value: None, False, 0, empty string and
empty containers are falsy, everything else is truthy. -/
def truthy : JVal → Bool
  | .null => false
  | .bool b => b
  | .num q => q != 0
  | .str s => s ≠ ""
  | .arr xs => ¬ xs.isEmpty
  | .obj kvs => ¬ kvs.isEmpty

/-- Python `d.get(k)`: the first value stored under `k`, or None. -/
def dget (kvs : List (String × JVal)) (k : String) : JVal :=
  (kvs.lookup k).getD .null

/-- Python `a or b` on JSON values. -/
def pyOr (a b : JVal) : JVal := if truthy a then a else b

/-- Python `str(v)` restricted to the values the code stores as tokens.
Containers get a fixed placeholder rendering (their exact repr is never
relied upon by the code under verification). -/
def pyStr : JVal → String
  | .null => "None"
  | .bool b => if b then "True" else "False"
  | .num q => if q.den = 1 then toString q.num else toString q
  | .str s => s
  | .arr _ => "<list>"
  | .obj _ => "<dict>"

/-- Integer-string parsing as in Python `int(s)`: optional surrounding
whitespace, optional sign, then one or more decimal digits. -/
def parseIntStr (s : String) : Option Int :=
  let cs := s.trim.toList
  let (sgn, ds) : Int × List Char :=
    match cs with
    | '-' :: rest => (-1, rest)
    | '+' :: rest => (1, rest)
    | rest => (1, rest)
  if ds ≠ [] ∧ ds.all Char.isDigit then
    some (sgn * (ds.foldl (fun n c => n * 10 + (c.toNat - 48)) 0 : Nat))
  else
    none

/-- Python `int(v)`: identity on ints, truncation toward zero on floats,
0/1 on bools, strict integer parsing on strings; TypeError (modelled as
`Except.error`) on None and containers, ValueError on bad strings. -/
def toIntPy : JVal → Except Unit Int
  | .num q => .ok (if 0 ≤ q then ⌊q⌋ else ⌈q⌉)
  | .bool b => .ok (if b then 1 else 0)
  | .str s => match parseIntStr s with
      | some n => .ok n
      | none => .error ()
  | _ => .error ()

/-- Exceptions that can escape the auth-manager methods: the library's
AuthenticationError, and the uncaught OverflowError that
`datetime.fromtimestamp` / `timedelta` arithmetic can raise. -/
inductive PyExc where
  | authError : PyExc
  | overflowError : PyExc
deriving DecidableEq, Repr

/-- Classified transport exceptions as seen by the auth manager:
an `AuthenticationError` versus any other exception kind. -/
inductive TErr where
  | auth : TErr
  | other : TErr
deriving DecidableEq, Repr

/-- Earliest instant representable by `datetime` (0001-01-01T00:00:00Z),
in seconds since the Unix epoch. -/
def epochMin : ℚ := -62135596800

/-- Latest instant representable by `datetime` (9999-12-31T23:59:59Z),
in seconds since the Unix epoch. -/
def epochMax : ℚ := 253402300799

/-- Model of `datetime.fromtimestamp(q, tz=timezone.utc)`: raises
OverflowError outside the representable datetime range. -/
def fromtimestampE (q : ℚ) : Except PyExc ℚ :=
  if q < epochMin ∨ epochMax < q then .error .overflowError else .ok q

/-- Largest magnitude, in whole seconds, accepted by
`timedelta(seconds=...)` (999999999 days, 86399 seconds). -/
def tdMaxSecI : Int := 86399999999999

/-- `epochMin` as an integer. -/
def epochMinI : Int := -62135596800

/-- `epochMax` as an integer. -/
def epochMaxI : Int := 253402300799

/-- Model of `now + timedelta(seconds=k)` at an integral instant `now`:
`timedelta` construction and datetime addition both raise OverflowError
when out of range. -/
def addSecondsE (now : Int) (k : Int) : Except PyExc ℚ :=
  if k < -tdMaxSecI ∨ tdMaxSecI < k then .error .overflowError
  else if now + k < epochMinI ∨ epochMaxI < now + k then .error .overflowError
  else .ok ((now + k : Int) : ℚ)

/-- Mutable authentication state of `AuthManager`
(src/lojack_clients/auth.py): `_access_token`, `_refresh_token`,
`_expires_at`, `_user_id`.  The refresh token and user id hold whatever
JSON value the response supplied (the source stores them untyped). -/
structure AuthState where
  access_token : Option String
  refresh_token : JVal
  expires_at : Option ℚ
  user_id : JVal

/-- Constructor-time configuration of `AuthManager`: credentials and the
token refresh margin (seconds, default 60). -/
structure AuthConfig where
  username : Option String
  password : Option String
  margin : Int

/-- State of a freshly constructed `AuthManager` (no token held). -/
def freshState : AuthState :=
  { access_token := none, refresh_token := .null, expires_at := none, user_id := .null }

/-- Truthiness of `self._access_token` (None or empty string is falsy). -/
def tokenHeld (s : AuthState) : Bool :=
  match s.access_token with
  | some t => t ≠ ""
  | none => false

/-- Truthiness of an optional credential string. -/
def credPresent : Option String → Bool
  | some u => u ≠ ""
  | none => false

/-- Python `if not self._username or not self._password` guard. -/
def credsOk (cfg : AuthConfig) : Bool :=
  credPresent cfg.username && credPresent cfg.password

/-- The `is_authenticated` property: a token is held and either no expiry
is known or now is strictly before it.  Observation instants are whole
seconds (integers); expiries may be fractional. -/
def is_authenticated (s : AuthState) (now : Int) : Bool :=
  match s.access_token with
  | none => false
  | some t =>
    if t = "" then false
    else match s.expires_at with
      | some e => (now : ℚ) < e
      | none => true

/-- Exported authentication state (`AuthArtifacts` dataclass). -/
structure AuthArtifacts where
  access_token : String
  expires_at : Option ℚ
  refresh_token : JVal
  user_id : JVal

/-- The `export_auth_artifacts` method: None when no (truthy) access
token is held, otherwise a snapshot of the four session fields. -/
def export_auth_artifacts (s : AuthState) : Option AuthArtifacts :=
  match s.access_token with
  | none => none
  | some t =>
    if t = "" then none
    else some { access_token := t, expires_at := s.expires_at,
                refresh_token := s.refresh_token, user_id := s.user_id }

/-- The `import_auth_artifacts` method: overwrites all four session
fields from the artifacts (the previous state is discarded). -/
def import_auth_artifacts (_s : AuthState) (a : AuthArtifacts) : AuthState :=
  { access_token := some a.access_token, refresh_token := a.refresh_token,
    expires_at := a.expires_at, user_id := a.user_id }

/-- The `clear` method. -/
def clear (_s : AuthState) : AuthState := freshState

/-- Result of an auth-manager method call: the returned value or escaped
exception, the state of the manager afterwards (Python mutations persist
even when an exception propagates), and how many transport requests were
issued. -/
structure PyRes where
  res : Except PyExc String
  st : AuthState
  calls : Nat

/-- The token value a login/refresh response carries:
`data.get("access_token") or data.get("token")`. -/
def tokOf (kvs : List (String × JVal)) : JVal :=
  pyOr (dget kvs "access_token") (dget kvs "token")

/-- The relative expiry a response carries:
`data.get("expires_in") or data.get("expiresIn")`. -/
def relOf (kvs : List (String × JVal)) : JVal :=
  pyOr (dget kvs "expires_in") (dget kvs "expiresIn")

/-- The absolute expiry a response carries:
`data.get("expires_at") or data.get("expiresAt")`. -/
def absOf (kvs : List (String × JVal)) : JVal :=
  pyOr (dget kvs "expires_at") (dget kvs "expiresAt")

/-- The user id a login response carries:
`data.get("user_id") or data.get("userId")`. -/
def uidOf (kvs : List (String × JVal)) : JVal :=
  pyOr (dget kvs "user_id") (dget kvs "userId")

/-- The `login` method of `AuthManager` (src/lojack_clients/auth.py lines
137-197).  `now` is the instant `datetime.now` returns, `tr` the outcome
of the `/auth/login` transport call, `iso` the behaviour of
`datetime.fromisoformat` (None where it raises ValueError). -/
def login (cfg : AuthConfig) (s : AuthState) (now : Int)
    (tr : Except TErr JVal) (iso : String → Option ℚ) : PyRes :=
  if ¬ credsOk cfg then ⟨.error .authError, s, 0⟩
  else
    match tr with
    | .error _ => ⟨.error .authError, s, 1⟩
    | .ok data =>
      match data with
      | .obj kvs =>
        if truthy (tokOf kvs) then
          let s1 : AuthState :=
            { access_token := some (pyStr (tokOf kvs)),
              refresh_token := dget kvs "refresh_token",
              expires_at := s.expires_at,
              user_id := uidOf kvs }
          if truthy (relOf kvs) then
            match toIntPy (relOf kvs) with
            | .error _ => ⟨.ok (pyStr (tokOf kvs)), { s1 with expires_at := none }, 1⟩
            | .ok k =>
              match addSecondsE now k with
              | .error e => ⟨.error e, s1, 1⟩
              | .ok t => ⟨.ok (pyStr (tokOf kvs)), { s1 with expires_at := some t }, 1⟩
          else
            if truthy (absOf kvs) then
              match absOf kvs with
              | .num q =>
                match fromtimestampE q with
                | .error e => ⟨.error e, s1, 1⟩
                | .ok t => ⟨.ok (pyStr (tokOf kvs)), { s1 with expires_at := some t }, 1⟩
              | .bool b =>
                match fromtimestampE (if b then 1 else 0) with
                | .error e => ⟨.error e, s1, 1⟩
                | .ok t => ⟨.ok (pyStr (tokOf kvs)), { s1 with expires_at := some t }, 1⟩
              | .str sv =>
                ⟨.ok (pyStr (tokOf kvs)),
                 { s1 with expires_at := iso (sv.replace "Z" "+00:00") }, 1⟩
              | _ => ⟨.ok (pyStr (tokOf kvs)), s1, 1⟩
            else ⟨.ok (pyStr (tokOf kvs)), s1, 1⟩
        else ⟨.error .authError, s, 1⟩
      | _ => ⟨.error .authError, s, 1⟩

/-- The `refresh` method of `AuthManager` (src/lojack_clients/auth.py
lines 199-245).  `nowR`/`tR` belong to the refresh POST itself;
`nowL`/`tL` are handed to `login` when it falls back. -/
def refresh (cfg : AuthConfig) (s : AuthState) (nowR : Int)
    (tR : Except TErr JVal) (nowL : Int) (tL : Except TErr JVal)
    (iso : String → Option ℚ) : PyRes :=
  if ¬ truthy s.refresh_token then login cfg s nowL tL iso
  else
    match tR with
    | .error .auth =>
      let r := login cfg s nowL tL iso
      ⟨r.res, r.st, r.calls + 1⟩
    | .error .other => ⟨.error .authError, s, 1⟩
    | .ok data =>
      match data with
      | .obj kvs =>
        if truthy (tokOf kvs) then
          let s1 : AuthState :=
            { s with
              access_token := some (pyStr (tokOf kvs)),
              refresh_token :=
                if truthy (dget kvs "refresh_token") then
                  .str (pyStr (dget kvs "refresh_token"))
                else s.refresh_token }
          if truthy (relOf kvs) then
            match toIntPy (relOf kvs) with
            | .error _ => ⟨.ok (pyStr (tokOf kvs)), s1, 1⟩
            | .ok k =>
              match addSecondsE nowR k with
              | .error e => ⟨.error e, s1, 1⟩
              | .ok t => ⟨.ok (pyStr (tokOf kvs)), { s1 with expires_at := some t }, 1⟩
          else ⟨.ok (pyStr (tokOf kvs)), s1, 1⟩
        else
          let r := login cfg s nowL tL iso
          ⟨r.res, r.st, r.calls + 1⟩
      | _ =>
        let r := login cfg s nowL tL iso
        ⟨r.res, r.st, r.calls + 1⟩

/-- Which branch `get_token` takes. -/
inductive TokenAction where
  | cached : TokenAction
  | doLogin : TokenAction
  | doRefresh : TokenAction
deriving DecidableEq, Repr

/-- The branch structure of `get_token` (src/lojack_clients/auth.py lines
247-265): login when no truthy token is held; refresh when an expiry is
known and now is at or past expiry minus the margin; otherwise return the
cached token. -/
def getTokenAction (s : AuthState) (margin : Int) (now : Int) : TokenAction :=
  match s.access_token with
  | none => .doLogin
  | some t =>
    if t = "" then .doLogin
    else
      match s.expires_at with
      | some e => if e ≤ ((now + margin : Int) : ℚ) then .doRefresh else .cached
      | none => .cached

/-- Transport outcomes available to one `get_token` call: the refresh
POST outcome and the login POST outcome, each with the instant at which
`datetime.now` would be read inside that method. -/
structure Oracle where
  tR : Except TErr JVal
  nowR : Int
  tL : Except TErr JVal
  nowL : Int

/-- The `get_token` method, dispatching on `getTokenAction`; the cached
branch performs no transport call and leaves the state untouched. -/
def get_token (cfg : AuthConfig) (s : AuthState) (now : Int) (orc : Oracle)
    (iso : String → Option ℚ) : PyRes :=
  match getTokenAction s cfg.margin now with
  | .doLogin => login cfg s orc.nowL orc.tL iso
  | .doRefresh => refresh cfg s orc.nowR orc.tR orc.nowL orc.tL iso
  | .cached => ⟨.ok (s.access_token.getD ""), s, 0⟩

/-- A sequence of `get_token` calls: fold over the observation instants
(and per-call transport oracles), threading the manager state and
accumulating the number of transport requests issued. -/
def runGetToken (cfg : AuthConfig) (iso : String → Option ℚ)
    (s : AuthState) (steps : List (Int × Oracle)) : AuthState × Nat :=
  steps.foldl
    (fun acc step =>
      let r := get_token cfg acc.1 step.1 step.2 iso
      (r.st, acc.2 + r.calls))
    (s, 0)

/-- The cached token is still fresh at instant `now`: no expiry is known,
or `now` is strictly before expiry minus the refresh margin. -/
def freshAt (s : AuthState) (margin : Int) (now : Int) : Prop :=
  match s.expires_at with
  | some e => ((now + margin : Int) : ℚ) < e
  | none => True

instance (s : AuthState) (margin : Int) (now : Int) :
    Decidable (freshAt s margin now) := by
  unfold freshAt
  cases s.expires_at <;> infer_instance

/-- The `Location` record.  Modelled from the spec: `lojack_api/models.py`
is not present in the source tree; the field inventory follows spec
section 3 ("Location") and matches every field read or written by
`_enrich_location_from_event` in src/lojack_api/device.py. -/
structure Location where
  latitude : Option ℚ
  longitude : Option ℚ
  timestamp : Option ℚ
  speed : Option ℚ
  heading : Option ℚ
  accuracy : Option ℚ
  odometer : Option ℚ
  battery_voltage : Option ℚ
  engine_hours : Option ℚ
  distance_driven : Option ℚ
  signal_strength : Option ℚ
  gps_fix_quality : Option String
  event_type : Option String
  event_id : Option String
  address : Option String
  raw : JVal

/-- The timestamp guard of `_enrich_location_from_event`: the event
carries a timestamp and the location has none or a strictly earlier one
(`event.timestamp is not None` and `location.timestamp is None or
event.timestamp > location.timestamp`). -/
def tsLater (locTs evTs : Option ℚ) : Bool :=
  match evTs with
  | none => false
  | some t =>
    match locTs with
    | none => true
    | some b => decide (b < t)

/-- The `_enrich_location_from_event` function
(src/lojack_api/device.py lines 460-507), translated statement by
statement: the Python code mutates `location` in place and never assigns
to `event`, so the embedding threads `location` through the twelve
conditional assignments and returns the final `(location, event)` pair. -/
def _enrich_location_from_event (location event : Location) : Location × Location :=
  let location :=
    if location.speed = none ∧ event.speed ≠ none then
      { location with speed := event.speed } else location
  let location :=
    if location.heading = none ∧ event.heading ≠ none then
      { location with heading := event.heading } else location
  let location :=
    if location.odometer = none ∧ event.odometer ≠ none then
      { location with odometer := event.odometer } else location
  let location :=
    if location.battery_voltage = none ∧ event.battery_voltage ≠ none then
      { location with battery_voltage := event.battery_voltage } else location
  let location :=
    if location.engine_hours = none ∧ event.engine_hours ≠ none then
      { location with engine_hours := event.engine_hours } else location
  let location :=
    if location.distance_driven = none ∧ event.distance_driven ≠ none then
      { location with distance_driven := event.distance_driven } else location
  let location :=
    if location.signal_strength = none ∧ event.signal_strength ≠ none then
      { location with signal_strength := event.signal_strength } else location
  let location :=
    if location.gps_fix_quality = none ∧ event.gps_fix_quality ≠ none then
      { location with gps_fix_quality := event.gps_fix_quality } else location
  let location :=
    if location.event_type = none ∧ event.event_type ≠ none then
      { location with event_type := event.event_type } else location
  let location :=
    if location.event_id = none ∧ event.event_id ≠ none then
      { location with event_id := event.event_id } else location
  let location :=
    if location.address = none ∧ event.address ≠ none then
      { location with address := event.address } else location
  let location :=
    if tsLater location.timestamp event.timestamp then
      { location with timestamp := event.timestamp }
    else location
  (location, event)

/-- A numeric-or-string value, as accepted by the accuracy resolver. -/
inductive AccVal where
  | num (q : ℚ) : AccVal
  | str (s : String) : AccVal

/-- Decimal-string parsing as in Python float coercion: optional
surrounding whitespace and sign, digits with at most one decimal point,
at least one digit overall. -/
def parseDecimalStr (s : String) : Option ℚ :=
  let cs := s.trim.toList
  let (sgn, ds) : ℚ × List Char :=
    match cs with
    | '-' :: rest => (-1, rest)
    | '+' :: rest => (1, rest)
    | rest => (1, rest)
  let ip := ds.takeWhile (fun c => c ≠ '.')
  let rest := ds.drop ip.length
  if ¬ ip.all Char.isDigit then none
  else
    match rest with
    | [] =>
      if ip = [] then none
      else some (sgn * (ip.foldl (fun n c => n * 10 + (c.toNat - 48)) 0 : Nat))
    | '.' :: fp =>
      if ip = [] ∧ fp = [] then none
      else if ¬ fp.all Char.isDigit then none
      else
        let ipv : Nat := ip.foldl (fun n c => n * 10 + (c.toNat - 48)) 0
        let fpv : Nat := fp.foldl (fun n c => n * 10 + (c.toNat - 48)) 0
        some (sgn * ((ipv : ℚ) + (fpv : ℚ) / ((10 : ℚ) ^ fp.length)))
    | _ => none

/-- Numeric interpretation of a resolver input value (a number directly,
or a numeric string coerced). -/
def accNum : AccVal → Option ℚ
  | .num q => some q
  | .str s => parseDecimalStr s

/-- Quality-label normalization: case-insensitive, internal whitespace
and underscores ignored. -/
def normalizeLabel (s : String) : String :=
  String.mk ((s.toUpper.toList.filter (fun c => c ≠ ' ' ∧ c ≠ '_')))

/-- Modelled from the spec: the categorical quality-label table of spec
section 4.2 step 4 (EXCELLENT 5, GOOD 10, MODERATE/FAIR 25, POOR 50,
BAD/VERY_POOR 100, NO_FIX 200, otherwise no value). -/
def qualityToMeters (s : String) : Option ℚ :=
  let n := normalizeLabel s
  if n = "EXCELLENT" then some 5
  else if n = "GOOD" then some 10
  else if n = "MODERATE" then some 25
  else if n = "FAIR" then some 25
  else if n = "POOR" then some 50
  else if n = "BAD" then some 100
  else if n = "VERYPOOR" then some 100
  else if n = "NOFIX" then some 200
  else none

/-- Modelled from the spec: steps 2-5 of the accuracy resolution rules of
spec section 4.2, reached when no positive HDOP is given (the function
`_parse_gps_accuracy` lives in lojack_api/models.py, which is absent from
the source tree; behaviour cross-checked against
src/tests/test_models.py). -/
def accuracyFallback (accuracy : Option AccVal) (gps_quality : Option String) :
    Option ℚ :=
  let step4 := gps_quality.bind qualityToMeters
  match accuracy with
  | some a =>
    match accNum a with
    | some q =>
      if 0 < q then (if q ≤ 15 then some (q * 5) else some q)
      else step4
    | none =>
      match a with
      | .str s => (qualityToMeters s).orElse (fun _ => step4)
      | .num _ => step4
  | none => step4

/-- Modelled from the spec: `_parse_gps_accuracy(accuracy, hdop,
gps_quality)` of lojack_api/models.py, following the precedence rules of
spec section 4.2: a positive HDOP (numeric or numeric string) yields
hdop * 5; otherwise a positive numeric accuracy yields accuracy * 5 when
at most 15 and accuracy itself when above 15; otherwise a recognized
label from the accuracy string, then from the quality argument; else no
value. -/
def _parse_gps_accuracy (accuracy hdop : Option AccVal)
    (gps_quality : Option String) : Option ℚ :=
  match hdop.bind accNum with
  | some h => if 0 < h then some (h * 5) else accuracyFallback accuracy gps_quality
  | none => accuracyFallback accuracy gps_quality

/-- Exceptions visible to the client layer: the classified transport
errors, the domain-specific not-found signal, and the AttributeError a
non-dict `attributes`/item value would trigger. -/
inductive ClientExc where
  | apiError (status : Option Int) : ClientExc
  | deviceNotFound (device_id : String) : ClientExc
  | authenticationError : ClientExc
  | otherError : ClientExc
  | attrError : ClientExc
deriving DecidableEq, Repr

/-- Outcome of classifying one payload item: wrapped as a `Vehicle` built
from `VehicleInfo.from_api`, or as a plain `Device` built from
`DeviceInfo.from_api` (the `from_api` constructors live in the absent
models module; classification keeps the payload). -/
inductive Classified where
  | vehicle (item : JVal) : Classified
  | device (item : JVal) : Classified

/-- Python `v == "s"` between a JSON value and a string literal. -/
def isStrEq (v : JVal) (s : String) : Bool :=
  match v with
  | .str t => t = s
  | _ => false

/-- Vehicle-vs-device discrimination of src/lojack_api/api.py (lines
267-279 and 296-317): `attrs = item.get("attributes", {})`, then vehicle
iff `attrs.get("vin") or item.get("vin")` is truthy.  A non-dict
`attributes` value makes `attrs.get` raise AttributeError. -/
def classifyApi (item : JVal) : Except ClientExc Classified :=
  match item with
  | .obj kvs =>
    match (kvs.lookup "attributes").getD (.obj []) with
    | .obj akvs =>
      .ok (if truthy (dget akvs "vin") || truthy (dget kvs "vin") then
             .vehicle item
           else .device item)
    | _ => .error .attrError
  | _ => .error .attrError

/-- Vehicle-vs-device discrimination of src/lojack_clients/api.py (lines
213-223 and 239-260): vehicle iff `item.get("vin")` is truthy or
`item.get("type") == "vehicle"`. -/
def classifyClients (item : JVal) : Except ClientExc Classified :=
  match item with
  | .obj kvs =>
    .ok (if truthy (dget kvs "vin") || isStrEq (dget kvs "type") "vehicle" then
           .vehicle item
         else .device item)
  | _ => .error .attrError

/-- The per-item loop body of both `list_devices` implementations:
non-dict items are skipped, dict items are classified. -/
def handleItems (classify : JVal → Except ClientExc Classified)
    (items : List JVal) : Except ClientExc (List Classified) :=
  match items with
  | [] => .ok []
  | item :: rest =>
    match item with
    | .obj _ =>
      match classify item with
      | .error e => .error e
      | .ok c =>
        match handleItems classify rest with
        | .error e => .error e
        | .ok cs => .ok (c :: cs)
    | _ => handleItems classify rest

/-- The `get_device` method of src/lojack_api/api.py (lines 283-317): a
transport `ApiError` with status 404 becomes `DeviceNotFoundError`
carrying the device id, any other `ApiError` is re-raised unchanged, other
exceptions propagate; a non-dict body also becomes not-found; otherwise
the item is unwrapped via `data.get("content") or data.get("asset") or
data` and classified. -/
def get_device_api (device_id : String) (tr : Except ClientExc JVal) :
    Except ClientExc Classified :=
  match tr with
  | .error (.apiError st) =>
    if st = some 404 then .error (.deviceNotFound device_id)
    else .error (.apiError st)
  | .error e => .error e
  | .ok data =>
    match data with
    | .obj kvs =>
      classifyApi (pyOr (dget kvs "content") (pyOr (dget kvs "asset") (.obj kvs)))
    | _ => .error (.deviceNotFound device_id)

/-- The `get_device` method of src/lojack_clients/api.py (lines 227-260):
same 404 translation, with `data.get("device") or data.get("asset") or
data` unwrapping and the clients-module classifier. -/
def get_device_clients (device_id : String) (tr : Except ClientExc JVal) :
    Except ClientExc Classified :=
  match tr with
  | .error (.apiError st) =>
    if st = some 404 then .error (.deviceNotFound device_id)
    else .error (.apiError st)
  | .error e => .error e
  | .ok data =>
    match data with
    | .obj kvs =>
      classifyClients (pyOr (dget kvs "device") (pyOr (dget kvs "asset") (.obj kvs)))
    | _ => .error (.deviceNotFound device_id)

/-- The discrimination rule as the claim states it: a VIN at top level or
inside a nested `attributes` object, or an explicit `type` marker equal to
"vehicle".  Written from the claim for comparison with the two
classifiers translated from the source. -/
def specVehiclePred (item : JVal) : Bool :=
  match item with
  | .obj kvs =>
    truthy (dget kvs "vin") ||
    (match dget kvs "attributes" with
     | .obj akvs => truthy (dget akvs "vin")
     | _ => false) ||
    isStrEq (dget kvs "type") "vehicle"
  | _ => false

/-- An input that is absent, zero or negative in the sense of the
accuracy-resolution claim (a categorical string is neither). -/
def nonposOrAbsent : Option AccVal → Bool
  | none => true
  | some (.num q) => decide (q ≤ 0)
  | some (.str _) => false

/-- Concrete fixture: an `iso` collaborator on which `fromisoformat`
always fails. -/
def isoNone : String → Option ℚ := fun _ => none

/-- Concrete fixture: a transport oracle whose calls would all fail
(never reached in the scenarios that use it). -/
def orcIdle : Oracle := ⟨.error .other, 0, .error .other, 0⟩

/-- Concrete fixture: a configuration with credentials and the default
60-second refresh margin. -/
def cfgEx : AuthConfig := ⟨some "user", some "pw", 60⟩

/-- Concrete fixture: a manager state holding token "tok" expiring at
instant 1000, with no refresh token. -/
def sHeld : AuthState := ⟨some "tok", .null, some 1000, .null⟩

/-- Concrete fixture: a manager state holding token "tok" expiring at
instant 1000, with refresh token "r". -/
def sRT : AuthState := ⟨some "tok", .str "r", some 1000, .null⟩

/-- Concrete fixture: an authenticated state about to be torn by an
overflowing login response. -/
def sOld : AuthState := ⟨some "old", .str "r", some 100, .str "u"⟩

/-- Concrete fixture: a login response whose absolute expiry overflows
`datetime.fromtimestamp`. -/
def payloadOverflow : JVal :=
  .obj [("token", .str "t"), ("expires_at", .num 1000000000000000000)]

/-- Concrete fixture: entries of a login response carrying both a
relative expiry of 0 seconds and an absolute expiry at instant 1000. -/
def kvsBothExpiries : List (String × JVal) :=
  [("token", .str "t"), ("expires_in", .num 0), ("expires_at", .num 1000)]

/-- Concrete fixture: the response built from `kvsBothExpiries`. -/
def payloadBothExpiries : JVal := .obj kvsBothExpiries

/-- Concrete fixture: a payload whose only VIN sits inside the nested
`attributes` object. -/
def kvsAttrsVin : List (String × JVal) :=
  [("attributes", .obj [("vin", .str "X")])]

/-- Helper: with a truthy token held and the expiry still outside the
refresh margin, `get_token` takes the cached branch. -/
theorem getTokenAction_cached_of_fresh (s : AuthState) (m : Int) (now : Int)
    (h : tokenHeld s = true) (hf : freshAt s m now) :
    getTokenAction s m now = .cached := by
  rcases hs : s.access_token with _ | t
  · simp [tokenHeld, hs] at h
  · have ht : ¬ t = "" := by simpa [tokenHeld, hs] using h
    rcases he : s.expires_at with _ | e
    · simp [getTokenAction, hs, he, ht]
    · have hlt : (now : ℚ) + (m : ℚ) < e := by
        have := hf
        simp only [freshAt, he] at this
        push_cast at this
        exact this
      simp [getTokenAction, hs, he, ht, not_le.mpr hlt]

/-- Helper: a single `get_token` call at a fresh instant returns the
cached token, performs no transport call and leaves the state unchanged. -/
theorem get_token_fresh_cached (cfg : AuthConfig) (iso : String → Option ℚ)
    (s : AuthState) (now : Int) (orc : Oracle)
    (h : tokenHeld s = true) (hf : freshAt s cfg.margin now) :
    get_token cfg s now orc iso = ⟨.ok (s.access_token.getD ""), s, 0⟩ := by
  unfold get_token
  rw [getTokenAction_cached_of_fresh s cfg.margin now h hf]

/-- Claim C1: across any sequence of sequential `get_token` calls made
while the cached token stays valid (a token is held and every observation
instant is strictly before expiry minus the refresh margin, when an
expiry is known), no transport call at all is issued (hence at most one),
each call returns the cached access token and leaves the state
unchanged; and `get_token` takes the refresh branch exactly when a token
and an expiry are held and the instant is at or past expiry minus the
margin. -/
theorem get_token_sequence_cached :
    (∀ (cfg : AuthConfig) (iso : String → Option ℚ) (s : AuthState)
        (steps : List (Int × Oracle)),
      tokenHeld s = true →
      (∀ p ∈ steps, freshAt s cfg.margin p.1) →
      runGetToken cfg iso s steps = (s, 0) ∧
      (runGetToken cfg iso s steps).2 ≤ 1 ∧
      (∀ p ∈ steps,
        get_token cfg s p.1 p.2 iso = ⟨.ok (s.access_token.getD ""), s, 0⟩)) ∧
    (∀ (s : AuthState) (m : Int) (now : Int),
      getTokenAction s m now = .doRefresh ↔
        tokenHeld s = true ∧ ∃ e, s.expires_at = some e ∧ e - (m : ℚ) ≤ (now : ℚ)) := by
  constructor
  · intro cfg iso s steps h hfresh
    have hrun : ∀ (l : List (Int × Oracle)), (∀ p ∈ l, freshAt s cfg.margin p.1) →
        ∀ n : Nat,
        List.foldl
          (fun acc step =>
            let r := get_token cfg acc.1 step.1 step.2 iso
            (r.st, acc.2 + r.calls)) (s, n) l = (s, n) := by
      intro l
      induction l with
      | nil => intro _ n; rfl
      | cons p rest ih =>
        intro hl n
        have hp := hl p (List.mem_cons_self p rest)
        have hrest : ∀ q ∈ rest, freshAt s cfg.margin q.1 :=
          fun q hq => hl q (List.mem_cons_of_mem p hq)
        simp only [List.foldl_cons, get_token_fresh_cached cfg iso s p.1 p.2 h hp]
        exact ih hrest n
    refine ⟨hrun steps hfresh 0, ?_, ?_⟩
    · rw [show runGetToken cfg iso s steps = (s, 0) from hrun steps hfresh 0]
      exact Nat.zero_le 1
    · exact fun p hp => get_token_fresh_cached cfg iso s p.1 p.2 h (hfresh p hp)
  · intro s m now
    have hc : ((now + m : Int) : ℚ) = (now : ℚ) + (m : ℚ) := by push_cast; ring
    constructor
    · intro hact
      rcases hs : s.access_token with _ | t
      · simp [getTokenAction, hs] at hact
      · by_cases ht : t = ""
        · simp [getTokenAction, hs, ht] at hact
        · rcases he : s.expires_at with _ | e
          · simp [getTokenAction, hs, ht, he] at hact
          · by_cases hle : e ≤ (now : ℚ) + (m : ℚ)
            · exact ⟨by simp [tokenHeld, hs, ht], e, rfl, by linarith⟩
            · simp [getTokenAction, hs, ht, he] at hact
              exact absurd hact hle
    · rintro ⟨hheld, e, he, hle⟩
      rcases hs : s.access_token with _ | t
      · simp [tokenHeld, hs] at hheld
      · have ht : ¬ t = "" := by simpa [tokenHeld, hs] using hheld
        have hle2 : e ≤ (now : ℚ) + (m : ℚ) := by linarith
        simp [getTokenAction, hs, ht, he, hle2]

/-- Claim C2: for every pair of Location records, enrichment copies each
of the eleven enrichable fields from the telemetry record into the base
record exactly when the base value is absent (so a non-null base field is
never overwritten), and the timestamp becomes the telemetry timestamp
exactly when the telemetry has one and the base timestamp is absent or
strictly earlier. -/
theorem enrich_copies_only_absent (base tel : Location) :
    ((_enrich_location_from_event base tel).1.speed
      = if base.speed = none then tel.speed else base.speed) ∧
    ((_enrich_location_from_event base tel).1.heading
      = if base.heading = none then tel.heading else base.heading) ∧
    ((_enrich_location_from_event base tel).1.odometer
      = if base.odometer = none then tel.odometer else base.odometer) ∧
    ((_enrich_location_from_event base tel).1.battery_voltage
      = if base.battery_voltage = none then tel.battery_voltage else base.battery_voltage) ∧
    ((_enrich_location_from_event base tel).1.engine_hours
      = if base.engine_hours = none then tel.engine_hours else base.engine_hours) ∧
    ((_enrich_location_from_event base tel).1.distance_driven
      = if base.distance_driven = none then tel.distance_driven else base.distance_driven) ∧
    ((_enrich_location_from_event base tel).1.signal_strength
      = if base.signal_strength = none then tel.signal_strength else base.signal_strength) ∧
    ((_enrich_location_from_event base tel).1.gps_fix_quality
      = if base.gps_fix_quality = none then tel.gps_fix_quality else base.gps_fix_quality) ∧
    ((_enrich_location_from_event base tel).1.event_type
      = if base.event_type = none then tel.event_type else base.event_type) ∧
    ((_enrich_location_from_event base tel).1.event_id
      = if base.event_id = none then tel.event_id else base.event_id) ∧
    ((_enrich_location_from_event base tel).1.address
      = if base.address = none then tel.address else base.address) ∧
    ((_enrich_location_from_event base tel).1.timestamp
      = match tel.timestamp, base.timestamp with
        | none, _ => base.timestamp
        | some t, none => some t
        | some t, some bt => if bt < t then some t else some bt) := by
  refine ⟨?_, ?_, ?_, ?_, ?_, ?_, ?_, ?_, ?_, ?_, ?_, ?_⟩ <;>
    simp only [_enrich_location_from_event,
      apply_ite Location.speed, apply_ite Location.heading,
      apply_ite Location.odometer, apply_ite Location.battery_voltage,
      apply_ite Location.engine_hours, apply_ite Location.distance_driven,
      apply_ite Location.signal_strength, apply_ite Location.gps_fix_quality,
      apply_ite Location.event_type, apply_ite Location.event_id,
      apply_ite Location.address, apply_ite Location.timestamp, ite_self]
  case _ => rcases base.speed <;> rcases tel.speed <;> simp
  case _ => rcases base.heading <;> rcases tel.heading <;> simp
  case _ => rcases base.odometer <;> rcases tel.odometer <;> simp
  case _ => rcases base.battery_voltage <;> rcases tel.battery_voltage <;> simp
  case _ => rcases base.engine_hours <;> rcases tel.engine_hours <;> simp
  case _ => rcases base.distance_driven <;> rcases tel.distance_driven <;> simp
  case _ => rcases base.signal_strength <;> rcases tel.signal_strength <;> simp
  case _ => rcases base.gps_fix_quality <;> rcases tel.gps_fix_quality <;> simp
  case _ => rcases base.event_type <;> rcases tel.event_type <;> simp
  case _ => rcases base.event_id <;> rcases tel.event_id <;> simp
  case _ => rcases base.address <;> rcases tel.address <;> simp
  case _ =>
    rcases tel.timestamp with _ | t <;> rcases base.timestamp with _ | bt <;>
      simp [tsLater]

/-- Claim C10: enrichment leaves the telemetry argument untouched and
never changes the base record's latitude, longitude, accuracy or raw
payload; only the eleven enrichable fields and the timestamp can change. -/
theorem enrich_frame (base tel : Location) :
    ((_enrich_location_from_event base tel).2 = tel) ∧
    ((_enrich_location_from_event base tel).1.latitude = base.latitude) ∧
    ((_enrich_location_from_event base tel).1.longitude = base.longitude) ∧
    ((_enrich_location_from_event base tel).1.accuracy = base.accuracy) ∧
    ((_enrich_location_from_event base tel).1.raw = base.raw) := by
  refine ⟨rfl, ?_, ?_, ?_, ?_⟩ <;>
    simp only [_enrich_location_from_event,
      apply_ite Location.latitude, apply_ite Location.longitude,
      apply_ite Location.accuracy, apply_ite Location.raw, ite_self]

/-- Witness for claim C1: two sequential `get_token` calls at instants 0
and 10 against a token expiring at 1000 with margin 60 issue zero
transport calls and leave the state unchanged. -/
theorem get_token_sequence_cached_witness :
    runGetToken cfgEx isoNone sHeld [(0, orcIdle), (10, orcIdle)] = (sHeld, 0) ∧
    (runGetToken cfgEx isoNone sHeld [(0, orcIdle), (10, orcIdle)]).2 ≤ 1 := by
  have h := (get_token_sequence_cached.1 cfgEx isoNone sHeld
    [(0, orcIdle), (10, orcIdle)] (by decide) (by decide))
  exact ⟨h.1, h.2.1⟩

/-- Claim C7: exporting the auth artifacts of a manager holding a
non-empty token and importing them into a fresh manager reproduces the
`is_authenticated` result (at the same instant) and the user id; export
returns None exactly when no (truthy) access token is held. -/
theorem export_import_round_trip :
    (∀ (s : AuthState) (now : Int),
      tokenHeld s = true →
      ∃ a, export_auth_artifacts s = some a ∧
        is_authenticated (import_auth_artifacts freshState a) now
          = is_authenticated s now ∧
        (import_auth_artifacts freshState a).user_id = s.user_id) ∧
    (∀ s : AuthState, export_auth_artifacts s = none ↔ tokenHeld s = false) := by
  constructor
  · intro s now h
    obtain ⟨sat, srt, sea, suid⟩ := s
    rcases sat with _ | t
    · simp [tokenHeld] at h
    · have ht : ¬ t = "" := by simpa [tokenHeld] using h
      exact ⟨⟨t, sea, srt, suid⟩,
        by simp [export_auth_artifacts, ht], rfl, rfl⟩
  · intro s
    obtain ⟨sat, srt, sea, suid⟩ := s
    rcases sat with _ | t
    · simp [export_auth_artifacts, tokenHeld]
    · by_cases ht : t = "" <;> simp [export_auth_artifacts, tokenHeld, ht]

/-- Witness for claim C7: the round trip at the concrete state `sHeld`
and instant 5. -/
theorem export_import_round_trip_witness :
    ∃ a, export_auth_artifacts sHeld = some a ∧
      is_authenticated (import_auth_artifacts freshState a) 5
        = is_authenticated sHeld 5 ∧
      (import_auth_artifacts freshState a).user_id = sHeld.user_id :=
  export_import_round_trip.1 sHeld 5 (by decide)

/-- Claim C9 (code bug): a login response whose token is fine but whose
absolute expiry overflows `datetime.fromtimestamp` makes `login` raise an
uncaught OverflowError after `_access_token`, `_refresh_token` and
`_user_id` were already overwritten: the exception escapes with the
session state torn, not restored. -/
theorem login_overflow_tears_state :
    (login cfgEx sOld 0 (.ok payloadOverflow) isoNone).res
      = .error .overflowError ∧
    (login cfgEx sOld 0 (.ok payloadOverflow) isoNone).st.access_token
      = some "t" ∧
    (login cfgEx sOld 0 (.ok payloadOverflow) isoNone).st ≠ sOld := by
  refine ⟨rfl, rfl, fun hcontra => ?_⟩
  have h := congrArg AuthState.access_token hcontra
  rw [show (login cfgEx sOld 0 (.ok payloadOverflow) isoNone).st.access_token
      = some "t" from rfl] at h
  exact absurd h (by decide)

/-- Claim C8: in both client modules, `get_device` translates a transport
`ApiError` with status 404 into `DeviceNotFoundError` carrying the device
id, and re-raises an `ApiError` with any other status unchanged. -/
theorem get_device_404_translated (device_id : String) (st : Option Int) :
    (get_device_api device_id (.error (.apiError (some 404)))
      = .error (.deviceNotFound device_id)) ∧
    (get_device_clients device_id (.error (.apiError (some 404)))
      = .error (.deviceNotFound device_id)) ∧
    (st ≠ some 404 →
      get_device_api device_id (.error (.apiError st)) = .error (.apiError st) ∧
      get_device_clients device_id (.error (.apiError st)) = .error (.apiError st)) := by
  refine ⟨by simp [get_device_api], by simp [get_device_clients], fun h => ?_⟩
  exact ⟨by simp [get_device_api, h], by simp [get_device_clients, h]⟩

/-- Witness for claim C8: a 404 on device "dev-1" becomes not-found, a
500 propagates unchanged, in both modules. -/
theorem get_device_404_translated_witness :
    (get_device_api "dev-1" (.error (.apiError (some 404)))
      = .error (.deviceNotFound "dev-1")) ∧
    (get_device_api "dev-1" (.error (.apiError (some 500)))
      = .error (.apiError (some 500))) ∧
    (get_device_clients "dev-1" (.error (.apiError (some 500)))
      = .error (.apiError (some 500))) :=
  ⟨(get_device_404_translated "dev-1" (some 500)).1,
   ((get_device_404_translated "dev-1" (some 500)).2.2 (by decide)).1,
   ((get_device_404_translated "dev-1" (some 500)).2.2 (by decide)).2⟩

/-- Claim C3: `refresh` with no (truthy) refresh token delegates entirely
to `login`; with a refresh token, an authentication-class transport
failure falls back to `login` (one extra transport call), any other
transport failure raises `AuthenticationError` with the state untouched,
and a successful response carrying a token updates the access token, the
refresh token exactly when a new one was issued, and the expiry exactly
when a parseable `expires_in` was supplied, all in place. -/
theorem refresh_case_analysis :
    (∀ (cfg : AuthConfig) (s : AuthState) (nowR nowL : Int)
       (tR tL : Except TErr JVal) (iso : String → Option ℚ),
      truthy s.refresh_token = false →
      refresh cfg s nowR tR nowL tL iso = login cfg s nowL tL iso) ∧
    (∀ (cfg : AuthConfig) (s : AuthState) (nowR nowL : Int)
       (tL : Except TErr JVal) (iso : String → Option ℚ),
      truthy s.refresh_token = true →
      refresh cfg s nowR (.error .auth) nowL tL iso =
        ⟨(login cfg s nowL tL iso).res, (login cfg s nowL tL iso).st,
         (login cfg s nowL tL iso).calls + 1⟩) ∧
    (∀ (cfg : AuthConfig) (s : AuthState) (nowR nowL : Int)
       (tL : Except TErr JVal) (iso : String → Option ℚ),
      truthy s.refresh_token = true →
      refresh cfg s nowR (.error .other) nowL tL iso
        = ⟨.error .authError, s, 1⟩) ∧
    (∀ (cfg : AuthConfig) (s : AuthState) (nowR nowL : Int)
       (tL : Except TErr JVal) (iso : String → Option ℚ)
       (kvs : List (String × JVal)),
      truthy s.refresh_token = true →
      truthy (tokOf kvs) = true →
      (refresh cfg s nowR (.ok (.obj kvs)) nowL tL iso).st.access_token
          = some (pyStr (tokOf kvs)) ∧
      (refresh cfg s nowR (.ok (.obj kvs)) nowL tL iso).st.refresh_token
          = (if truthy (dget kvs "refresh_token") then
               JVal.str (pyStr (dget kvs "refresh_token"))
             else s.refresh_token) ∧
      (refresh cfg s nowR (.ok (.obj kvs)) nowL tL iso).st.user_id
          = s.user_id ∧
      (refresh cfg s nowR (.ok (.obj kvs)) nowL tL iso).calls = 1 ∧
      (∀ (k : Int) (t : ℚ), truthy (relOf kvs) = true →
        toIntPy (relOf kvs) = .ok k → addSecondsE nowR k = .ok t →
        (refresh cfg s nowR (.ok (.obj kvs)) nowL tL iso).st.expires_at
            = some t ∧
        (refresh cfg s nowR (.ok (.obj kvs)) nowL tL iso).res
            = .ok (pyStr (tokOf kvs))) ∧
      (truthy (relOf kvs) = false →
        (refresh cfg s nowR (.ok (.obj kvs)) nowL tL iso).st.expires_at
            = s.expires_at ∧
        (refresh cfg s nowR (.ok (.obj kvs)) nowL tL iso).res
            = .ok (pyStr (tokOf kvs)))) := by
  refine ⟨?_, ?_, ?_, ?_⟩
  · intro cfg s nowR nowL tR tL iso h
    simp [refresh, h]
  · intro cfg s nowR nowL tL iso h
    simp [refresh, h]
  · intro cfg s nowR nowL tL iso h
    simp [refresh, h]
  · intro cfg s nowR nowL tL iso kvs h htok
    refine ⟨?_, ?_, ?_, ?_, ?_, ?_⟩
    · cases hrel : truthy (relOf kvs) with
      | false => simp [refresh, h, htok, hrel]
      | true =>
        rcases hk : toIntPy (relOf kvs) with u | k
        · simp [refresh, h, htok, hrel, hk]
        · rcases ha : addSecondsE nowR k with e | t2 <;>
            simp [refresh, h, htok, hrel, hk, ha]
    · cases hrel : truthy (relOf kvs) with
      | false => simp [refresh, h, htok, hrel]
      | true =>
        rcases hk : toIntPy (relOf kvs) with u | k
        · simp [refresh, h, htok, hrel, hk]
        · rcases ha : addSecondsE nowR k with e | t2 <;>
            simp [refresh, h, htok, hrel, hk, ha]
    · cases hrel : truthy (relOf kvs) with
      | false => simp [refresh, h, htok, hrel]
      | true =>
        rcases hk : toIntPy (relOf kvs) with u | k
        · simp [refresh, h, htok, hrel, hk]
        · rcases ha : addSecondsE nowR k with e | t2 <;>
            simp [refresh, h, htok, hrel, hk, ha]
    · cases hrel : truthy (relOf kvs) with
      | false => simp [refresh, h, htok, hrel]
      | true =>
        rcases hk : toIntPy (relOf kvs) with u | k
        · simp [refresh, h, htok, hrel, hk]
        · rcases ha : addSecondsE nowR k with e | t2 <;>
            simp [refresh, h, htok, hrel, hk, ha]
    · intro k t hrel hk ha
      constructor <;> simp [refresh, h, htok, hrel, hk, ha]
    · intro hrel
      constructor <;> simp [refresh, h, htok, hrel]

/-- Witness for claim C3: with refresh token "r", a non-authentication
transport failure of the refresh POST raises `AuthenticationError` and
leaves the state untouched after one transport call. -/
theorem refresh_case_analysis_witness :
    refresh cfgEx sRT 0 (.error .other) 0 (.error .other) isoNone
      = ⟨.error .authError, sRT, 1⟩ :=
  refresh_case_analysis.2.2.1 cfgEx sRT 0 0 (.error .other) isoNone (by decide)

/-- Claim C4 (amended): during login, a truthy relative expiry
(`expires_in`/`expiresIn`) wins: the result does not depend on the
absolute `expires_at`/`expiresAt` entries at all; but when the relative
expiry is absent or falsy (0, empty string, None), the absolute value is
consulted, and a nonzero in-range numeric absolute expiry becomes the
session expiry. -/
theorem login_expiry_precedence :
    (∀ (cfg : AuthConfig) (s : AuthState) (now : Int)
       (iso : String → Option ℚ) (kvs kvs2 : List (String × JVal)),
      tokOf kvs = tokOf kvs2 →
      dget kvs "refresh_token" = dget kvs2 "refresh_token" →
      uidOf kvs = uidOf kvs2 →
      relOf kvs = relOf kvs2 →
      truthy (relOf kvs) = true →
      login cfg s now (.ok (.obj kvs)) iso
        = login cfg s now (.ok (.obj kvs2)) iso) ∧
    (∀ (cfg : AuthConfig) (s : AuthState) (now : Int)
       (iso : String → Option ℚ) (kvs : List (String × JVal)) (q : ℚ),
      credsOk cfg = true →
      truthy (tokOf kvs) = true →
      truthy (relOf kvs) = false →
      absOf kvs = .num q →
      q ≠ 0 →
      epochMin ≤ q → q ≤ epochMax →
      (login cfg s now (.ok (.obj kvs)) iso).st.expires_at = some q) := by
  constructor
  · intro cfg s now iso kvs kvs2 h1 h2 h3 h4 h5
    have h5' : truthy (relOf kvs2) = true := h4 ▸ h5
    by_cases hc : credsOk cfg = true
    · simp only [login, h1, h2, h3, h4, h5', hc]
      simp
    · simp [login, hc]
  · intro cfg s now iso kvs q hc htok hrel habs hq hmin hmax
    have hne : ¬ (q < epochMin ∨ epochMax < q) :=
      not_or.mpr ⟨not_lt.mpr hmin, not_lt.mpr hmax⟩
    have hTq : truthy (JVal.num q) = true := by simp [truthy, hq]
    have habsT : truthy (absOf kvs) = true := by rw [habs]; exact hTq
    simp [login, hc, htok, hrel, habs, habsT, hTq, fromtimestampE, hne]

/-- Counterexample for claim C4 as stated: the response carrying both
`expires_in = 0` and `expires_at = 1000` yields expiry 1000 from the
absolute value, not now plus the relative value (0 + 0). -/
theorem login_expiry_relative_zero_loses :
    (login cfgEx freshState 0 (.ok payloadBothExpiries) isoNone).st.expires_at
      = some 1000 ∧
    (login cfgEx freshState 0 (.ok payloadBothExpiries) isoNone).st.expires_at
      ≠ some (((0 + 0 : Int)) : ℚ) := by
  refine ⟨rfl, fun h => ?_⟩
  rw [show (login cfgEx freshState 0 (.ok payloadBothExpiries) isoNone).st.expires_at
      = some 1000 from rfl] at h
  exact absurd h (by decide)

/-- Witness for claim C4 (amended): the same both-expiries response,
whose relative expiry 0 is falsy, gets its expiry from the absolute
value. -/
theorem login_expiry_precedence_witness :
    (login cfgEx freshState 0 (.ok (.obj kvsBothExpiries)) isoNone).st.expires_at
      = some 1000 :=
  login_expiry_precedence.2 cfgEx freshState 0 isoNone kvsBothExpiries 1000
    (by decide) (by decide) (by decide) rfl (by decide) (by decide) (by decide)

/-- Claim C5: accuracy resolution gives hdop times 5 for every positive
HDOP, accuracy times 5 for positive numeric accuracy at most 15, the
accuracy itself above 15, and no value when every input is absent, zero
or negative. -/
theorem parse_gps_accuracy_rules :
    (∀ (h : ℚ) (acc : Option AccVal) (gq : Option String), 0 < h →
      _parse_gps_accuracy acc (some (.num h)) gq = some (h * 5)) ∧
    (∀ (a : ℚ) (gq : Option String), 0 < a → a ≤ 15 →
      _parse_gps_accuracy (some (.num a)) none gq = some (a * 5)) ∧
    (∀ (a : ℚ) (gq : Option String), 15 < a →
      _parse_gps_accuracy (some (.num a)) none gq = some a) ∧
    (∀ (acc hd : Option AccVal),
      nonposOrAbsent acc = true → nonposOrAbsent hd = true →
      _parse_gps_accuracy acc hd none = none) := by
  refine ⟨?_, ?_, ?_, ?_⟩
  · intro h acc gq hpos
    simp [_parse_gps_accuracy, accNum, hpos]
  · intro a gq hpos hle
    simp [_parse_gps_accuracy, accuracyFallback, accNum, hpos, hle]
  · intro a gq h15
    have h0 : (0 : ℚ) < a := lt_trans (by norm_num) h15
    simp [_parse_gps_accuracy, accuracyFallback, accNum, h0, not_le.mpr h15]
  · intro acc hd hacc hhd
    have fall : accuracyFallback acc none = none := by
      rcases acc with _ | av
      · simp [accuracyFallback]
      · rcases av with q | sv
        · have hq : q ≤ 0 := by simpa [nonposOrAbsent] using hacc
          simp [accuracyFallback, accNum, not_lt.mpr hq]
        · simp [nonposOrAbsent] at hacc
    rcases hd with _ | hv
    · simpa [_parse_gps_accuracy] using fall
    · rcases hv with q | sv
      · have hq : q ≤ 0 := by simpa [nonposOrAbsent] using hhd
        simpa [_parse_gps_accuracy, accNum, not_lt.mpr hq] using fall
      · simp [nonposOrAbsent] at hhd

/-- Witness for claim C5: HDOP 2 gives 10, accuracy 2 gives 10, accuracy
25 stays 25, and zero/negative inputs give no value. -/
theorem parse_gps_accuracy_rules_witness :
    _parse_gps_accuracy none (some (.num 2)) none = some (2 * 5) ∧
    _parse_gps_accuracy (some (.num 2)) none none = some (2 * 5) ∧
    _parse_gps_accuracy (some (.num 25)) none none = some 25 ∧
    _parse_gps_accuracy (some (.num 0)) (some (.num (-1))) none = none :=
  ⟨parse_gps_accuracy_rules.1 2 none none (by decide),
   parse_gps_accuracy_rules.2.1 2 none (by decide) (by decide),
   parse_gps_accuracy_rules.2.2.1 25 none (by decide),
   parse_gps_accuracy_rules.2.2.2 (some (.num 0)) (some (.num (-1)))
     (by decide) (by decide)⟩

/-- Claim C6 (amended): the lojack_api classifier marks an item as a
vehicle exactly when a truthy VIN sits under `attributes` or at top level
(an explicit type marker is never consulted); the lojack_clients
classifier marks it as a vehicle exactly when a truthy top-level VIN is
present or the top-level `type` equals "vehicle" (the `attributes` object
is never consulted). -/
theorem vehicle_classification :
    (∀ (kvs akvs : List (String × JVal)),
      (kvs.lookup "attributes").getD (.obj []) = .obj akvs →
      (classifyApi (.obj kvs) = .ok (.vehicle (.obj kvs)) ↔
        truthy (dget akvs "vin") = true ∨ truthy (dget kvs "vin") = true)) ∧
    (∀ kvs : List (String × JVal),
      classifyClients (.obj kvs) = .ok (.vehicle (.obj kvs)) ↔
        truthy (dget kvs "vin") = true ∨
          isStrEq (dget kvs "type") "vehicle" = true) := by
  constructor
  · intro kvs akvs hA
    cases ha : truthy (dget akvs "vin") <;>
      cases hb : truthy (dget kvs "vin") <;>
      simp [classifyApi, hA, ha, hb]
  · intro kvs
    cases ha : truthy (dget kvs "vin") <;>
      cases hb : isStrEq (dget kvs "type") "vehicle" <;>
      simp [classifyClients, ha, hb]

/-- Witness for claim C6 (amended): the lojack_api classifier marks the
attributes-only-VIN payload as a vehicle. -/
theorem vehicle_classification_witness :
    classifyApi (.obj kvsAttrsVin) = .ok (.vehicle (.obj kvsAttrsVin)) :=
  (vehicle_classification.1 kvsAttrsVin [("vin", .str "X")] rfl).mpr
    (Or.inl (by decide))

/-- Counterexample for claim C6 as stated: the payload whose only VIN
sits under `attributes` satisfies the claimed discrimination rule, yet
the lojack_clients classifier marks it as a plain device. -/
theorem vehicle_classification_counterexample :
    classifyClients (.obj kvsAttrsVin) = .ok (.device (.obj kvsAttrsVin)) ∧
    specVehiclePred (.obj kvsAttrsVin) = true :=
  ⟨rfl, rfl⟩

end LoJack
